import Mathlib

-- Verification of the natural-language query-translation layer of the
-- TraderJohn-Database repository: the component extractor and relational
-- synthesizer of src/utils/query_generator.py, and the document-pipeline
-- synthesizer of src/utils/mongodb_query_generator.py.
--
-- The Python code drives everything through the `re` module, so the
-- embedding starts with a small backtracking regular-expression engine
-- whose enumeration order mirrors the Python one (leftmost start position,
-- left alternative first, greedy quantifiers longest-first, lazy
-- quantifiers shortest-first).  Each Python pattern of the source is then
-- transcribed into one pattern term over this engine.

namespace TJ

-- ## Character classes of the patterns in use (ASCII inputs)

inductive CC where
  /-- the dot class: any character except a newline -/
  | any
  /-- backslash-w: letters, digits and underscore -/
  | word
  /-- backslash-s: ASCII whitespace -/
  | space
  /-- backslash-d: decimal digits -/
  | digit
  /-- the class of letters and underscore, written [a-zA-Z_] in the source -/
  | alphaU
  /-- the negated class: neither a quote character nor whitespace -/
  | notQS
  /-- one literal character, case sensitive -/
  | lit (c : Char)
  /-- one literal character, case insensitive (IGNORECASE patterns) -/
  | litCI (c : Char)
deriving DecidableEq, Repr

def isSpaceChar (c : Char) : Bool :=
  c = ' ' || c = '\t' || c = '\n' || c = '\r' || c = '\x0b' || c = '\x0c'

def isWordChar (c : Char) : Bool :=
  c.isAlpha || c.isDigit || c = '_'

def ccMatch : CC → Char → Bool
  | .any, c => c ≠ '\n'
  | .word, c => isWordChar c
  | .space, c => isSpaceChar c
  | .digit, c => c.isDigit
  | .alphaU, c => c.isAlpha || c = '_'
  | .notQS, c => !(c = '\'' || c = '"' || isSpaceChar c)
  | .lit d, c => c = d
  | .litCI d, c => c.toLower = d.toLower

-- ## Pattern syntax

inductive Re where
  /-- the empty pattern -/
  | eps
  /-- one character of a class -/
  | cls (c : CC)
  /-- concatenation -/
  | seq (a b : Re)
  /-- ordered alternation, left branch preferred -/
  | alt (a b : Re)
  /-- greedy option, as ? in the source -/
  | opt (r : Re)
  /-- greedy star -/
  | starG (r : Re)
  /-- lazy star, as *? in the source -/
  | starL (r : Re)
  /-- capturing group with its 1-based index -/
  | grp (i : Nat) (r : Re)
  /-- end of input, as the dollar anchor -/
  | eos
  /-- zero-width check that no word character follows; encodes the one
  word-boundary in the source, which always sits right after a word
  character -/
  | nwb
deriving Repr

/-- Captured groups of one match attempt: group index paired with the
captured text, latest capture of an index winning. -/
abbrev Caps := List (Nat × String)

def capSet (g : Caps) (i : Nat) (v : String) : Caps :=
  if g.any (fun p => p.1 = i) then
    g.map (fun p => if p.1 = i then (i, v) else p)
  else
    g ++ [(i, v)]

def capGet (g : Caps) (i : Nat) : Option String :=
  (g.find? (fun p => p.1 = i)).map (fun p => p.2)

/-- Node count of a pattern, used to size the matcher fuel. -/
def reSize : Re → Nat
  | .eps => 1
  | .cls _ => 1
  | .seq a b => 1 + reSize a + reSize b
  | .alt a b => 1 + reSize a + reSize b
  | .opt r => 1 + reSize r
  | .starG r => 1 + reSize r
  | .starL r => 1 + reSize r
  | .grp _ r => 1 + reSize r
  | .eos => 1
  | .nwb => 1

/-- Backtracking matcher.  `mat fuel r s g` lists every way `r` can match a
prefix of `s`, as (remaining input, captures) pairs, in the priority order
of the Python engine; the head of the list is the match Python commits to.
The recursion is structural on the fuel, every call spending one unit; a
fuel of (length + 1) * (size + 2) + 2 can never run out because descending
into the pattern costs at most its size between star unrollings and every
star unrolling consumes at least one input character, which the progress
filter enforces. -/
def mat : Nat → Re → List Char → Caps → List (List Char × Caps)
  | 0, _, _, _ => []
  | fuel + 1, r, s, g =>
    match r with
    | .eps => [(s, g)]
    | .cls c =>
      match s with
      | [] => []
      | x :: xs => if ccMatch c x then [(xs, g)] else []
    | .seq a b => (mat fuel a s g).flatMap (fun p => mat fuel b p.1 p.2)
    | .alt a b => mat fuel a s g ++ mat fuel b s g
    | .opt r => mat fuel r s g ++ [(s, g)]
    | .starG r =>
      (((mat fuel r s g).filter (fun p => p.1.length < s.length)).flatMap
        (fun p => mat fuel (.starG r) p.1 p.2)) ++ [(s, g)]
    | .starL r =>
      (s, g) :: ((mat fuel r s g).filter (fun p => p.1.length < s.length)).flatMap
        (fun p => mat fuel (.starL r) p.1 p.2)
    | .grp i r =>
      (mat fuel r s g).map
        (fun p => (p.1, capSet p.2 i (String.mk (s.take (s.length - p.1.length)))))
    | .eos =>
      match s with
      | [] => [(s, g)]
      | _ :: _ => []
    | .nwb =>
      match s with
      | [] => [(s, g)]
      | x :: _ => if isWordChar x then [] else [(s, g)]

/-- The fuel bound handed to the matcher. -/
def matchFuel (r : Re) (s : List Char) : Nat :=
  (s.length + 1) * (reSize r + 2) + 2

/-- Anchored match at the start of the input, as re.match: the committed
match length and captures, if any. -/
def matHere (r : Re) (s : List Char) : Option (Nat × Caps) :=
  match (mat (matchFuel r s) r s []).head? with
  | some p => some (s.length - p.1.length, p.2)
  | none => none

/-- Unanchored search, as re.search: splits the input at the first position
admitting a match into (text before, matched text, captures, text after). -/
def reSearchIn (r : Re) (s : List Char) : Option (List Char × List Char × Caps × List Char) :=
  match matHere r s with
  | some (n, g) => some ([], s.take n, g, s.drop n)
  | none =>
    match s with
    | [] => none
    | c :: cs =>
      match reSearchIn r cs with
      | some (b, m, g, a) => some (c :: b, m, g, a)
      | none => none

/-- Search returning only the captures of the committed match. -/
def reSearch (r : Re) (s : String) : Option Caps :=
  match reSearchIn r s.data with
  | some (_, _, g, _) => some g
  | none => none

/-- Boolean anchored-match test, as the truthiness of re.match. -/
def reMatchB (r : Re) (s : String) : Bool :=
  (matHere r s.data).isSome

/-- Global substitution, as re.sub: each committed match is replaced by the
text the replacement function computes from its captures.  The patterns
substituted in the source never match the empty string; an empty match
stops the scan as a guard. -/
def resubAux (fuel : Nat) (r : Re) (repl : Caps → String) (s : List Char) : List Char :=
  match fuel with
  | 0 => s
  | f + 1 =>
    match reSearchIn r s with
    | some (b, m, g, a) =>
      if m.isEmpty then s else b ++ (repl g).data ++ resubAux f r repl a
    | none => s

def resub (r : Re) (repl : Caps → String) (s : String) : String :=
  String.mk (resubAux (s.length + 1) r repl s.data)

/-- Bounded split, as re.split with a maxsplit argument: at most `n` cuts,
the remainder kept whole. -/
def resplitN (r : Re) : Nat → String → List String
  | 0, s => [s]
  | n + 1, s =>
    match reSearchIn r s.data with
    | some (b, m, _, a) =>
      if m.isEmpty then [s] else String.mk b :: resplitN r n (String.mk a)
    | none => [s]

/-- Unbounded split, as re.split without maxsplit; the input length bounds
the number of cuts since the patterns split on never match the empty
string. -/
def resplit (r : Re) (s : String) : List String :=
  resplitN r s.length s

-- ## Pattern building helpers

def rseq : List Re → Re
  | [] => .eps
  | [r] => r
  | r :: rs => .seq r (rseq rs)

def ralt : List Re → Re
  | [] => .eps
  | [r] => r
  | r :: rs => .alt r (ralt rs)

/-- Case-sensitive literal text. -/
def rlit (s : String) : Re := rseq (s.data.map (fun c => Re.cls (CC.lit c)))

/-- Case-insensitive literal text, for IGNORECASE patterns. -/
def rlitCI (s : String) : Re := rseq (s.data.map (fun c => Re.cls (CC.litCI c)))

/-- Whitespace star. -/
def ws0 : Re := .starG (.cls .space)

/-- Whitespace plus. -/
def ws1 : Re := .seq (.cls .space) ws0

/-- One or more word characters. -/
def word1 : Re := .seq (.cls .word) (.starG (.cls .word))

/-- An identifier: a letter or underscore then word characters, written
[a-zA-Z_] backslash-w star in the source. -/
def identRe : Re := .seq (.cls .alphaU) (.starG (.cls .word))

/-- One or more digits. -/
def digits1 : Re := .seq (.cls .digit) (.starG (.cls .digit))

/-- Zero or more digits. -/
def digits0 : Re := .starG (.cls .digit)

/-- Lazy dot star. -/
def anyLazy : Re := .starL (.cls .any)

/-- A quote character, single or double. -/
def quoteCC : Re := .alt (.cls (.lit '\'')) (.cls (.lit '"'))

/-- Greedy star of quote characters. -/
def quoteStar : Re := .starG quoteCC

/-- One or more characters that are neither quotes nor whitespace. -/
def notQS1 : Re := .seq (.cls .notQS) (.starG (.cls .notQS))

-- ## Python string primitives used by the source

def pyLower (s : String) : String := String.mk (s.data.map Char.toLower)

def pyUpper (s : String) : String := String.mk (s.data.map Char.toUpper)

/-- Substring containment, as the Python `in` test on strings. -/
def strContains (hay needle : String) : Bool :=
  go hay.data needle.data
where
  go : List Char → List Char → Bool
    | s, pat =>
      pat.isPrefixOf s ||
        match s with
        | [] => false
        | _ :: rest => go rest pat

/-- Both-ends whitespace strip, as str.strip with no argument. -/
def pyStrip (s : String) : String :=
  String.mk (((s.data.dropWhile isSpaceChar).reverse.dropWhile isSpaceChar).reverse)

/-- Both-ends strip of every character in the given set, as str.strip with
an argument. -/
def pyStripChars (cs : List Char) (s : String) : String :=
  String.mk (((s.data.dropWhile (fun c => cs.contains c)).reverse.dropWhile
    (fun c => cs.contains c)).reverse)

/-- Separator join, as str.join. -/
def pyJoin (sep : String) : List String → String
  | [] => ""
  | [x] => x
  | x :: xs => x ++ sep ++ pyJoin sep xs

/-- Tokenizer behind pySplitWs: walks the characters with the pending token
accumulated in reverse. -/
def pySplitWsGo : List Char → List Char → List String
  | [], cur => if cur.isEmpty then [] else [String.mk cur.reverse]
  | c :: cs, cur =>
    if isSpaceChar c then
      if cur.isEmpty then pySplitWsGo cs []
      else String.mk cur.reverse :: pySplitWsGo cs []
    else pySplitWsGo cs (c :: cur)

/-- Whitespace split dropping empty fields, as str.split with no
argument. -/
def pySplitWs (s : String) : List String :=
  pySplitWsGo s.data []

/-- Scanner behind pySplitOnSub, fuelled by the input length. -/
def pySplitOnSubGo (sep : List Char) : Nat → List Char → List Char → List String
  | _, [], cur => [String.mk cur.reverse]
  | 0, s, cur => [String.mk (cur.reverse ++ s)]
  | f + 1, c :: rest, cur =>
    if !sep.isEmpty && sep.isPrefixOf (c :: rest) then
      String.mk cur.reverse :: pySplitOnSubGo sep f ((c :: rest).drop sep.length) []
    else pySplitOnSubGo sep f rest (c :: cur)

/-- Separator split, as str.split with a nonempty separator argument:
leftmost non-overlapping occurrences cut the string, empty fields kept. -/
def pySplitOnSub (sep : String) (s : String) : List String :=
  pySplitOnSubGo sep.data s.data.length s.data []

/-- Scanner behind pyReplace, fuelled by the input length. -/
def pyReplaceGo (pat repl : List Char) : Nat → List Char → List Char
  | _, [] => []
  | 0, s => s
  | f + 1, c :: rest =>
    if !pat.isEmpty && pat.isPrefixOf (c :: rest) then
      repl ++ pyReplaceGo pat repl f ((c :: rest).drop pat.length)
    else c :: pyReplaceGo pat repl f rest

/-- Substring replacement, as str.replace with a nonempty pattern:
leftmost non-overlapping occurrences replaced. -/
def pyReplace (pat repl : String) (s : String) : String :=
  String.mk (pyReplaceGo pat.data repl.data s.data.length s.data)

/-- Decimal digits of a natural number, least significant first, fuelled by
the number itself. -/
def natDigitsAux : Nat → Nat → List Char
  | 0, _ => []
  | f + 1, n =>
    if n = 0 then []
    else Char.ofNat (48 + n % 10) :: natDigitsAux f (n / 10)

/-- Decimal rendering of an integer, as the str constructor on int. -/
def pyStr (n : Int) : String :=
  match n with
  | .ofNat m =>
    if m = 0 then "0" else String.mk (natDigitsAux (m + 1) m).reverse
  | .negSucc m => "-" ++ String.mk (natDigitsAux (m + 2) (m + 1)).reverse

/-- True iff the string is nonempty and all digits, as str.isdigit on ASCII
input. -/
def pyIsDigit (s : String) : Bool :=
  !s.data.isEmpty && s.data.all Char.isDigit

/-- Integer parse, as the int constructor: optional surrounding whitespace,
an optional sign, then digits.  Underscore digit grouping and non-decimal
forms never occur in this code base and are not modelled. -/
def pyInt (s : String) : Option Int :=
  let t := (pyStrip s).data
  let core : List Char → Option Int := fun ds =>
    if ds.isEmpty || !ds.all Char.isDigit then none
    else some (Int.ofNat (ds.foldl (fun n c => n * 10 + (c.toNat - 48)) 0))
  match t with
  | '-' :: rest => (core rest).map (fun n => -n)
  | '+' :: rest => core rest
  | _ => core t

-- ## The query IR of QueryGenerator.extract_query_components
--
-- One record per request, mirroring the components dict of
-- src/utils/query_generator.py lines 106 to 115: conditions are
-- (field, operator, value) string triples, order_by an optional
-- (field, direction) pair, aggregates (function, field, alias) triples.

structure Components where
  select : List String
  from_ : Option String
  where_ : List (String × String × String)
  having_ : List (String × String × String)
  group_by : List String
  order_by : Option (String × String)
  aggregates : List (String × String × String)
  limit : Option Int
deriving DecidableEq, Repr

/-- The freshly initialized components dict: select defaults to the star
column, every list empty, from, order_by and limit unset. -/
def emptyComponents : Components :=
  { select := ["*"], from_ := none, where_ := [], having_ := [],
    group_by := [], order_by := none, aggregates := [], limit := none }

-- ## Patterns of query_generator.py, one definition per source regex

/-- Source pattern grouped?\s+by\s+([a-zA-Z_]\w*): the final d of grouped is
optional, so this first rule matches grouped by but not group by. -/
def gpGrouped : Re :=
  rseq [rlit "groupe", .opt (.cls (.lit 'd')), ws1, rlit "by", ws1, .grp 1 identRe]

/-- Source pattern group\s+(?:by|on|using)\s+([a-zA-Z_]\w*). -/
def gpGroupBy : Re :=
  rseq [rlit "group", ws1, ralt [rlit "by", rlit "on", rlit "using"], ws1, .grp 1 identRe]

/-- Source pattern categorize(?:d)?\s+by\s+([a-zA-Z_]\w*). -/
def gpCategorize : Re :=
  rseq [rlit "categorize", .opt (rlit "d"), ws1, rlit "by", ws1, .grp 1 identRe]

/-- Source pattern organize(?:d)?\s+by\s+([a-zA-Z_]\w*). -/
def gpOrganize : Re :=
  rseq [rlit "organize", .opt (rlit "d"), ws1, rlit "by", ws1, .grp 1 identRe]

/-- Source pattern split\s+by\s+([a-zA-Z_]\w*). -/
def gpSplit : Re :=
  rseq [rlit "split", ws1, rlit "by", ws1, .grp 1 identRe]

/-- Source pattern partition(?:ed)?\s+by\s+([a-zA-Z_]\w*). -/
def gpPartition : Re :=
  rseq [rlit "partition", .opt (rlit "ed"), ws1, rlit "by", ws1, .grp 1 identRe]

/-- Source pattern (?:records|data|documents|results)\s+by\s+([a-zA-Z_]\w*). -/
def gpRecordsBy : Re :=
  rseq [ralt [rlit "records", rlit "data", rlit "documents", rlit "results"],
    ws1, rlit "by", ws1, .grp 1 identRe]

/-- The ordered group_patterns table of the constructor. -/
def qgGroupPatterns : List Re :=
  [gpGrouped, gpGroupBy, gpCategorize, gpOrganize, gpSplit, gpPartition, gpRecordsBy]

/-- Order pattern of the grouped-count branch, searched with IGNORECASE:
(?:order|sort)\s+by\s+([a-zA-Z_]\w*)(?:\s+(desc|asc|descending|ascending))?. -/
def qgGroupOrderRe : Re :=
  rseq [ralt [rlitCI "order", rlitCI "sort"], ws1, rlitCI "by", ws1, .grp 1 identRe,
    .opt (rseq [ws1, .grp 2 (ralt [rlitCI "desc", rlitCI "asc",
      rlitCI "descending", rlitCI "ascending"])])]

/-- Case-sensitive order pattern of the tail of the extractor:
(?:order|sort)\s+by\s+([a-zA-Z_]\w*)(?:\s+(desc|asc))?. -/
def qgOrderRe : Re :=
  rseq [ralt [rlit "order", rlit "sort"], ws1, rlit "by", ws1, .grp 1 identRe,
    .opt (rseq [ws1, .grp 2 (ralt [rlit "desc", rlit "asc"])])]

/-- Order pattern inside the having branch:
order\s+by\s+([a-zA-Z_]\w*)(?:\s+(desc|asc))?. -/
def qgHavingOrderRe : Re :=
  rseq [rlit "order", ws1, rlit "by", ws1, .grp 1 identRe,
    .opt (rseq [ws1, .grp 2 (ralt [rlit "desc", rlit "asc"])])]

/-- The having pattern of the extractor:
([a-zA-Z_]\w*)\s+having\s+(?:average|avg)\s+([a-zA-Z_]\w*)\s*(>|<|=)\s*(\d+). -/
def qgHavingRe : Re :=
  rseq [.grp 1 identRe, ws1, rlit "having", ws1, ralt [rlit "average", rlit "avg"],
    ws1, .grp 2 identRe, ws0,
    .grp 3 (ralt [.cls (.lit '>'), .cls (.lit '<'), .cls (.lit '=')]), ws0,
    .grp 4 digits1]

/-- The numeric value group (\d*\.?\d*) of the comparison patterns. -/
def qgNumGroup : Re :=
  .grp 2 (rseq [digits0, .opt (.cls (.lit '.')), digits0])

/-- A quoted value tail [\'"]*([^\'"\s]+)[\'"]* capturing group 2. -/
def qgQuotedVal : Re := rseq [quoteStar, .grp 2 notQS1, quoteStar]

/-- Equality pattern one: ([a-zA-Z_]\w*)\s+(?:is|equals|equal\s+to|=|
identical\s+to|matches|same\s+as)\s+ then a quoted value. -/
def qgEq1 : Re :=
  rseq [.grp 1 identRe, ws1,
    ralt [rlit "is", rlit "equals", rseq [rlit "equal", ws1, rlit "to"],
      rlit "=", rseq [rlit "identical", ws1, rlit "to"], rlit "matches",
      rseq [rlit "same", ws1, rlit "as"]],
    ws1, qgQuotedVal]

/-- Equality pattern two: whose\s+([a-zA-Z_]\w*)\s+(?:is|equals|matches)\s+
then a quoted value. -/
def qgEq2 : Re :=
  rseq [rlit "whose", ws1, .grp 1 identRe, ws1,
    ralt [rlit "is", rlit "equals", rlit "matches"], ws1, qgQuotedVal]

/-- Equality pattern three: ([a-zA-Z_]\w*)\s+(?:with\s+value|value)\s+ then
a quoted value. -/
def qgEq3 : Re :=
  rseq [.grp 1 identRe, ws1,
    ralt [rseq [rlit "with", ws1, rlit "value"], rlit "value"], ws1, qgQuotedVal]

/-- Greater pattern one: ([a-zA-Z_]\w*)\s*(?:>|greater\s+than|more\s+than|
larger\s+than|bigger\s+than|higher\s+than|exceeds|above|over)\s* then the
numeric group. -/
def qgGt1 : Re :=
  rseq [.grp 1 identRe, ws0,
    ralt [rlit ">", rseq [rlit "greater", ws1, rlit "than"],
      rseq [rlit "more", ws1, rlit "than"], rseq [rlit "larger", ws1, rlit "than"],
      rseq [rlit "bigger", ws1, rlit "than"], rseq [rlit "higher", ws1, rlit "than"],
      rlit "exceeds", rlit "above", rlit "over"],
    ws0, qgNumGroup]

/-- Greater pattern two: ([a-zA-Z_]\w*)\s+(?:exceeding|greater|more|larger|
bigger|higher)\s+than\s* then the numeric group. -/
def qgGt2 : Re :=
  rseq [.grp 1 identRe, ws1,
    ralt [rlit "exceeding", rlit "greater", rlit "more", rlit "larger",
      rlit "bigger", rlit "higher"],
    ws1, rlit "than", ws0, qgNumGroup]

/-- Greater pattern three: ([a-zA-Z_]\w*)\s+at\s+least\s* then the numeric
group. -/
def qgGt3 : Re :=
  rseq [.grp 1 identRe, ws1, rlit "at", ws1, rlit "least", ws0, qgNumGroup]

/-- Less pattern one: ([a-zA-Z_]\w*)\s*(?:<|less\s+than|smaller\s+than|
lower\s+than|under|below)\s* then the numeric group. -/
def qgLt1 : Re :=
  rseq [.grp 1 identRe, ws0,
    ralt [rlit "<", rseq [rlit "less", ws1, rlit "than"],
      rseq [rlit "smaller", ws1, rlit "than"], rseq [rlit "lower", ws1, rlit "than"],
      rlit "under", rlit "below"],
    ws0, qgNumGroup]

/-- Less pattern two: ([a-zA-Z_]\w*)\s+(?:not\s+exceeding|not\s+more\s+than|
at\s+most)\s* then the numeric group. -/
def qgLt2 : Re :=
  rseq [.grp 1 identRe, ws1,
    ralt [rseq [rlit "not", ws1, rlit "exceeding"],
      rseq [rlit "not", ws1, rlit "more", ws1, rlit "than"],
      rseq [rlit "at", ws1, rlit "most"]],
    ws0, qgNumGroup]

/-- Less pattern three: ([a-zA-Z_]\w*)\s+(?:within|under|below)\s* then the
numeric group. -/
def qgLt3 : Re :=
  rseq [.grp 1 identRe, ws1, ralt [rlit "within", rlit "under", rlit "below"],
    ws0, qgNumGroup]

/-- Not-equals pattern one: ([a-zA-Z_]\w*)\s+(?:not|!=|differs\s+from|
different\s+from)\s+(?:equal\s+to|equals|=)\s+ then a quoted value. -/
def qgNe1 : Re :=
  rseq [.grp 1 identRe, ws1,
    ralt [rlit "not", rlit "!=", rseq [rlit "differs", ws1, rlit "from"],
      rseq [rlit "different", ws1, rlit "from"]],
    ws1, ralt [rseq [rlit "equal", ws1, rlit "to"], rlit "equals", rlit "="],
    ws1, qgQuotedVal]

/-- Not-equals pattern two: ([a-zA-Z_]\w*)\s+(?:is\s+not|isnt|
is\s+different\s+from)\s+ then a quoted value. -/
def qgNe2 : Re :=
  rseq [.grp 1 identRe, ws1,
    ralt [rseq [rlit "is", ws1, rlit "not"], rlit "isnt",
      rseq [rlit "is", ws1, rlit "different", ws1, rlit "from"]],
    ws1, qgQuotedVal]

/-- Not-equals pattern three: ([a-zA-Z_]\w*)\s+(?:excluding|except|
other\s+than)\s+ then a quoted value. -/
def qgNe3 : Re :=
  rseq [.grp 1 identRe, ws1,
    ralt [rlit "excluding", rlit "except", rseq [rlit "other", ws1, rlit "than"]],
    ws1, qgQuotedVal]

/-- The between pattern checked first on each sub-span:
([a-zA-Z_]\w*)\s+between\s+(\d+)\s+and\s+(\d+). -/
def qgBetweenRe : Re :=
  rseq [.grp 1 identRe, ws1, rlit "between", ws1, .grp 2 digits1, ws1,
    rlit "and", ws1, .grp 3 digits1]

/-- The conjunction splitter (?i)\s+and\s+ of _extract_conditions. -/
def qgAndCI : Re := rseq [ws1, rlitCI "and", ws1]

/-- Anchored shortcut of _extract_columns:
(?i)(?:show|find|display|get)\s+(?:all\s+)?cars with a word boundary. -/
def qgCarsRe : Re :=
  rseq [ralt [rlitCI "show", rlitCI "find", rlitCI "display", rlitCI "get"],
    ws1, .opt (rseq [rlitCI "all", ws1]), rlitCI "cars", .nwb]

/-- Column list body ([a-zA-Z_]\w*(?:\s*,\s*[a-zA-Z_]\w*)*?) as group 1. -/
def qgColsBody : Re :=
  .grp 1 (rseq [identRe,
    .starL (rseq [ws0, .cls (.lit ','), ws0, identRe])])

/-- Column pattern one of _extract_columns, IGNORECASE:
(?:find|show|select|get|display)\s+ then the column list, ended by
\s+from, \s+in, \s+where, \s+order or \s+$. -/
def qgColPat1 : Re :=
  rseq [ralt [rlitCI "find", rlitCI "show", rlitCI "select", rlitCI "get",
      rlitCI "display"],
    ws1, qgColsBody,
    ralt [rseq [ws1, rlitCI "from"], rseq [ws1, rlitCI "in"],
      rseq [ws1, rlitCI "where"], rseq [ws1, rlitCI "order"],
      rseq [ws1, .eos]]]

/-- Column pattern two of _extract_columns, IGNORECASE:
(?:calculate|compute)\s+ then the column list, ended by \s+from, \s+in,
\s+where or \s+$. -/
def qgColPat2 : Re :=
  rseq [ralt [rlitCI "calculate", rlitCI "compute"],
    ws1, qgColsBody,
    ralt [rseq [ws1, rlitCI "from"], rseq [ws1, rlitCI "in"],
      rseq [ws1, rlitCI "where"], rseq [ws1, .eos]]]

/-- Table pattern f-string {prep}\s+(\w+) of _extract_table_name. -/
def qgPrepRe (prep : String) : Re :=
  rseq [rlit prep, ws1, .grp 1 word1]

/-- The four limit patterns of _extract_limit. -/
def qgLimitPatterns : List Re :=
  [rseq [rlit "top", ws1, .grp 1 digits1],
   rseq [rlit "first", ws1, .grp 1 digits1],
   rseq [rlit "limit", ws1, .grp 1 digits1],
   rseq [rlit "show", ws1, .grp 1 digits1]]

/-- The DESC entries of sort_patterns, searched with IGNORECASE. -/
def qgDescPatterns : List Re :=
  [rlitCI "descending", rlitCI "desc", rlitCI "decreasing", rlitCI "declining",
   rseq [rlitCI "larger", ws1, rlitCI "to", ws1, rlitCI "smaller"],
   rseq [rlitCI "highest", ws1, rlitCI "to", ws1, rlitCI "lowest"]]

/-- The ASC entries of sort_patterns, searched with IGNORECASE. -/
def qgAscPatterns : List Re :=
  [rlitCI "ascending", rlitCI "asc", rlitCI "increasing", rlitCI "growing",
   rseq [rlitCI "smaller", ws1, rlitCI "to", ws1, rlitCI "larger"],
   rseq [rlitCI "lowest", ws1, rlitCI "to", ws1, rlitCI "highest"]]

-- ## QueryGenerator methods

/-- QueryGenerator._parse_sort_direction: lower and strip the cue, check
the DESC pattern list first, then the ASC list, defaulting to ASC. -/
def parseSortDirection (s : String) : String :=
  let t := pyStrip (pyLower s)
  if qgDescPatterns.any (fun r => (reSearch r t).isSome) then "DESC"
  else if qgAscPatterns.any (fun r => (reSearch r t).isSome) then "ASC"
  else "ASC"

/-- QueryGenerator._extract_table_name, first phase: the first catalog
entry occurring as a substring of the text. -/
def tableDirect (text : String) (tables : List String) : Option String :=
  tables.find? (fun t => strContains text t)

/-- QueryGenerator._extract_table_name, second phase: for each preposition
from, in, of in order, capture the following word and return it when it is
a catalog entry, otherwise keep looking. -/
def tablePrepLoop : List String → String → List String → Option String
  | [], _, _ => none
  | p :: ps, text, tables =>
    match (reSearch (qgPrepRe p) text).bind (fun g => capGet g 1) with
    | some cap =>
      if tables.contains cap then some cap else tablePrepLoop ps text tables
    | none => tablePrepLoop ps text tables

/-- QueryGenerator._extract_table_name on the lower-cased text. -/
def extractTableName (text : String) (tables : List String) : Option String :=
  match tableDirect text tables with
  | some t => some t
  | none => tablePrepLoop ["from", "in", "of"] text tables

/-- QueryGenerator._extract_limit: the four phrase patterns tried in order
on the lower-cased text, the captured digits read as an integer. -/
def extractLimit (text : String) : Option Int :=
  (qgLimitPatterns.findSome? (fun r => reSearch r (pyLower text))).bind
    (fun g => (capGet g 1).map (fun c => (pyInt c).getD 0))

/-- One operator group of _extract_conditions: the patterns tried in order,
the first match contributing one (field, symbol, value) triple. -/
def condGroup (pats : List Re) (sym : String) (sub : String) :
    List (String × String × String) :=
  match pats.findSome? (fun p => reSearch p sub) with
  | some g => [((capGet g 1).getD "", sym, (capGet g 2).getD "")]
  | none => []

/-- Condition harvesting on one sub-span: the between pattern first, with
its immediate lowering to the two bound conditions, else the four operator
groups of condition_patterns in dict order. -/
def condOfChunk (sub : String) : List (String × String × String) :=
  match reSearch qgBetweenRe sub with
  | some g =>
    let f := (capGet g 1).getD ""
    [(f, ">=", (capGet g 2).getD ""), (f, "<=", (capGet g 3).getD "")]
  | none =>
    condGroup [qgEq1, qgEq2, qgEq3] "=" sub ++
    condGroup [qgGt1, qgGt2, qgGt3] ">" sub ++
    condGroup [qgLt1, qgLt2, qgLt3] "<" sub ++
    condGroup [qgNe1, qgNe2, qgNe3] "!=" sub

/-- The conjunction split of _extract_conditions. -/
def qgSplitAnd (text : String) : List String := resplit qgAndCI text

/-- QueryGenerator._extract_conditions: split the text on the conjunction,
then harvest each sub-span. -/
def extractConditions (text : String) : List (String × String × String) :=
  (qgSplitAnd text).flatMap condOfChunk

/-- Column loop of _extract_columns: each pattern searched in order; a
match yields the stripped comma-split fields, dropping empties, the star
and the literal word cars; an empty cleaned list falls through to the next
pattern. -/
def qgColsLoop : List Re → String → Option (List String)
  | [], _ => none
  | p :: ps, t =>
    match reSearch p t with
    | some g =>
      let cols := pySplitOnSub "," (pyStrip ((capGet g 1).getD ""))
      let cleaned := (cols.map pyStrip).filter
        (fun c => c ≠ "" && c ≠ "*" && pyLower c ≠ "cars")
      if cleaned ≠ [] then some cleaned else qgColsLoop ps t
    | none => qgColsLoop ps t

/-- QueryGenerator._extract_columns: the anchored cars shortcut first, then
the conjunction rewritten to a comma, then the two column patterns,
defaulting to the star column. -/
def extractColumns (text : String) : List String :=
  if reMatchB qgCarsRe text then ["*"]
  else
    let text2 := resub qgAndCI (fun _ => ", ") text
    match qgColsLoop [qgColPat1, qgColPat2] text2 with
    | some cols => cols
    | none => ["*"]

/-- First matching entry of group_patterns with its captured field, as the
group loop of the extractor. -/
def firstGroupMatch (text : String) : Option String :=
  (qgGroupPatterns.findSome? (fun r => reSearch r text)).bind
    (fun g => capGet g 1)

/-- Order clause of the grouped-count branch: the IGNORECASE pattern is
searched on the lower-cased text, so the captured field is lower-cased
too; the direction cue goes through _parse_sort_direction with the empty
string when absent. -/
def qgGroupOrder (lower : String) : Option (String × String) :=
  match reSearch qgGroupOrderRe lower with
  | some g =>
    some ((capGet g 1).getD "", parseSortDirection ((capGet g 2).getD ""))
  | none => none

/-- Order clause of the extractor tail, guarded by the order by or sort by
substring test on the lower-cased text but matched case-sensitively on the
original text; a missing direction cue defaults to ASC. -/
def qgOrder (text lower : String) : Option (String × String) :=
  if strContains lower "order by" || strContains lower "sort by" then
    match reSearch qgOrderRe text with
    | some g =>
      some ((capGet g 1).getD "",
        match capGet g 2 with
        | some d => pyUpper d
        | none => "ASC")
    | none => none
  else none

/-- Order clause of the having branch, guarded by the order by substring
test, matched on the original text. -/
def qgHavingOrder (text lower : String) : Option (String × String) :=
  if strContains lower "order by" then
    match reSearch qgHavingOrderRe text with
    | some g =>
      some ((capGet g 1).getD "",
        match capGet g 2 with
        | some d => pyUpper d
        | none => "ASC")
    | none => none
  else none

/-- The grouped-count branch of the extractor: select collapses to the
grouping field, a count-all aggregate is installed, the optional order
clause is read from the lower-cased text, and the function returns at once
so where and limit keep their defaults. -/
def qgGroupCountBranch (lower tbl gf : String) : Components :=
  { select := [gf], from_ := some tbl, where_ := [], having_ := [],
    group_by := [gf], order_by := qgGroupOrder lower,
    aggregates := [("COUNT", "*", "count_total")], limit := none }

/-- The having branch of the extractor: group field and aggregate field are
read from the original text, the having triple rewrites the aggregate as
AVG(field), and group_by and select are overwritten with the group
field. -/
def qgHavingBranch (text lower tbl : String) (g : Caps) : Components :=
  { select := [(capGet g 1).getD ""], from_ := some tbl, where_ := [],
    having_ := [("AVG(" ++ (capGet g 2).getD "" ++ ")",
      (capGet g 3).getD "", (capGet g 4).getD "")],
    group_by := [(capGet g 1).getD ""],
    order_by := qgHavingOrder text lower, aggregates := [], limit := none }

/-- The extractor tail: columns, conditions and order clause on the
original text, keeping whatever group_by the group loop left behind. -/
def qgTail (text lower tbl : String) (gb : List String) : Components :=
  let cols := extractColumns text
  let sel := if cols.isEmpty then ["*"] else cols
  { select := sel, from_ := some tbl, where_ := extractConditions text,
    having_ := [], group_by := gb, order_by := qgOrder text lower,
    aggregates := [], limit := none }

/-- The extractor after the group loop: the plain count branch returns at
once with conditions extracted from the original text; otherwise a
detected having phrase takes the having branch when its pattern matches,
and everything else reaches the tail. -/
def qgAfterGroup (text lower tbl : String) (gb : List String) : Components :=
  if strContains lower "count" then
    { select := [], from_ := some tbl, where_ := extractConditions text,
      having_ := [], group_by := gb, order_by := none,
      aggregates := [("COUNT", "*", "count_total")], limit := none }
  else if strContains lower "having" then
    match reSearch qgHavingRe text with
    | some g => qgHavingBranch text lower tbl g
    | none => qgTail text lower tbl gb
  else qgTail text lower tbl gb

/-- The extractor body once a usable table name is in hand: the group loop
runs on the original text; with a count cue the grouped-count branch
returns immediately, otherwise the captured group field is kept and the
rest of the extractor runs. -/
def qgMain (text lower tbl : String) : Components :=
  match firstGroupMatch text with
  | some gf =>
    if strContains lower "count" then qgGroupCountBranch lower tbl gf
    else qgAfterGroup text lower tbl [gf]
  | none => qgAfterGroup text lower tbl []

/-- QueryGenerator.extract_query_components: the text is lower-cased for
keyword matching, the table name resolved on the lower-cased copy (the
source performs the identical lookup twice), and a falsy table value, None
or the empty string, makes the extractor return the defaults at once with
the falsy value stored in from. -/
def extractQueryComponents (text : String) (tables : List String) : Components :=
  match extractTableName (pyLower text) tables with
  | none => emptyComponents
  | some tbl =>
    if tbl = "" then { emptyComponents with from_ := some "" }
    else qgMain text (pyLower text) tbl

/-- Rendering of one condition in generate_sql_query: the value stays bare
iff it is all digits once dots are removed, otherwise it is single
quoted. -/
def renderCond (c : String × String × String) : String :=
  let (f, op, v) := c
  if pyIsDigit (pyReplace "." "" v) then f ++ " " ++ op ++ " " ++ v
  else f ++ " " ++ op ++ " " ++ "\x27" ++ v ++ "\x27"

/-- QueryGenerator.generate_sql_query: the clause parts are assembled in
the fixed order SELECT, FROM, WHERE, GROUP BY, HAVING, ORDER BY, LIMIT,
absent clauses contributing nothing, and joined with single spaces.  Only
the first aggregate is rendered; with a group_by the grouping fields
precede it in the select list. -/
def generateSqlQuery (c : Components) : String :=
  let selectPart :=
    match c.aggregates with
    | (aggType, field, al) :: _ =>
      if c.group_by ≠ [] then
        "SELECT " ++ pyJoin ", " c.group_by ++ ", " ++ aggType ++ "(" ++ field ++
          ") AS " ++ al
      else "SELECT " ++ aggType ++ "(" ++ field ++ ") AS " ++ al
    | [] => "SELECT " ++ pyJoin ", " c.select
  let fromPart :=
    match c.from_ with
    | some t => if t = "" then [] else ["FROM " ++ t]
    | none => []
  let wherePart :=
    if c.where_.isEmpty then []
    else ["WHERE " ++ pyJoin " AND " (c.where_.map renderCond)]
  let groupPart :=
    if c.group_by.isEmpty then [] else ["GROUP BY " ++ pyJoin ", " c.group_by]
  let havingPart :=
    if c.having_.isEmpty then []
    else ["HAVING " ++ pyJoin " AND "
      (c.having_.map (fun p => p.1 ++ " " ++ p.2.1 ++ " " ++ p.2.2))]
  let orderPart :=
    match c.order_by with
    | some (f, d) => ["ORDER BY " ++ f ++ " " ++ d]
    | none => []
  let limitPart :=
    match c.limit with
    | some n => ["LIMIT " ++ pyStr n]
    | none => []
  pyJoin " " ([selectPart] ++ fromPart ++ wherePart ++ groupPart ++
    havingPart ++ orderPart ++ limitPart)

-- ## MongoDBQueryGenerator of src/utils/mongodb_query_generator.py

/-- A condition value after the numeric coercion of the parser: the Python
code keeps the string when conversion fails, turns it into an int when it
has no dot, and into a float when it has one.  Floats are modelled as
normalized decimals mant times ten to the minus exp, which is exact on the
decimal literals this code can meet; exotic float spellings never occur
here and are not modelled. -/
inductive Val where
  | str (s : String)
  | int (n : Int)
  | float (mant : Int) (exp : Nat)
deriving DecidableEq, Repr

/-- Decimal float parse feeding Val.float: optional sign, digits with an
optional single dot, trailing fractional zeros dropped so equal Python
floats get equal models. -/
def pyFloatVal (s : String) : Option Val :=
  let t := (pyStrip s).data
  let signed : Bool × List Char :=
    match t with
    | '-' :: rest => (true, rest)
    | '+' :: rest => (false, rest)
    | _ => (false, t)
  let body := signed.2
  let intPart := body.takeWhile Char.isDigit
  let rest := body.dropWhile Char.isDigit
  let fracPart :=
    match rest with
    | '.' :: fr => if fr.all Char.isDigit then some fr else none
    | [] => some []
    | _ => none
  match fracPart with
  | none => none
  | some fr =>
    if intPart.isEmpty && fr.isEmpty then none
    else
      let frTrim := (fr.reverse.dropWhile (fun c => c = '0')).reverse
      let digits := intPart ++ frTrim
      let mant : Int :=
        Int.ofNat (digits.foldl (fun n c => n * 10 + (c.toNat - 48)) 0)
      some (Val.float (if signed.1 then -mant else mant) frTrim.length)

/-- The numeric coercion of _extract_conditions: a dotted value goes
through float, an undotted one through int, and a failed conversion keeps
the string. -/
def coerceValue (v : String) : Val :=
  if strContains v "." then
    match pyFloatVal v with
    | some fv => fv
    | none => Val.str v
  else
    match pyInt v with
    | some n => Val.int n
    | none => Val.str v

/-- A parsed condition triple of the SQL re-parser. -/
abbrev MCondT := String × String × Val

/-- One entry of a match filter: a direct equality value or an operator
document such as a greater-than bound. -/
inductive MCond where
  | eqv (v : Val)
  | cmp (op : String) (v : Val)
deriving DecidableEq, Repr

/-- One entry of a group stage document. -/
inductive GV where
  | idRef (s : String)
  | sum1
  | sumField (f : String)
  | avgField (f : String)
  | maxField (f : String)
  | minField (f : String)
deriving DecidableEq, Repr

/-- One entry of a project stage document: an inclusion or exclusion flag
or a field reference rename. -/
inductive PV where
  | num (n : Int)
  | ref (s : String)
deriving DecidableEq, Repr

/-- One aggregation pipeline stage. -/
inductive Stage where
  | smatch (m : List (String × MCond))
  | group (entries : List (String × GV))
  | project (entries : List (String × PV))
  | sort (field : String) (dir : Int)
  | limit (n : Int)
deriving DecidableEq, Repr

/-- The final value of generate_mongo_query. -/
structure MongoQuery where
  collection : Option String
  pipeline : List Stage
deriving DecidableEq, Repr

/-- Insertion-ordered dict update, as a Python dict assignment: an existing
key is overwritten in place, a new key appended. -/
def dictSet {α : Type} (m : List (String × α)) (k : String) (v : α) :
    List (String × α) :=
  if m.any (fun p => p.1 = k) then
    m.map (fun p => if p.1 = k then (k, v) else p)
  else m ++ [(k, v)]

/-- The components dict of _parse_sql_query. -/
structure MSqlComponents where
  select : List String
  from_ : Option String
  where_ : List MCondT
  group_by : List String
  order_by : Option (String × String)
  having_ : List MCondT
  limit : Option Int
  aggregates : List (String × String × String)
deriving DecidableEq, Repr

-- Patterns of mongodb_query_generator.py, all searched with IGNORECASE.

/-- Source pattern SELECT\s+(.*?)\s+FROM. -/
def sqlSelectRe : Re :=
  rseq [rlitCI "SELECT", ws1, .grp 1 anyLazy, ws1, rlitCI "FROM"]

/-- Source pattern (COUNT|SUM|AVG|MIN|MAX)\((.*?)\)\s+AS\s+(\w+). -/
def sqlAggRe : Re :=
  rseq [.grp 1 (ralt [rlitCI "COUNT", rlitCI "SUM", rlitCI "AVG",
      rlitCI "MIN", rlitCI "MAX"]),
    .cls (.lit '('), .grp 2 anyLazy, .cls (.lit ')'),
    ws1, rlitCI "AS", ws1, .grp 3 word1]

/-- Source pattern FROM\s+(\w+). -/
def sqlFromRe : Re := rseq [rlitCI "FROM", ws1, .grp 1 word1]

/-- Source pattern WHERE\s+(.*?)(?:\s+GROUP BY|\s+ORDER BY|\s+HAVING|
\s+LIMIT|$). -/
def sqlWhereRe : Re :=
  rseq [rlitCI "WHERE", ws1, .grp 1 anyLazy,
    ralt [rseq [ws1, rlitCI "GROUP BY"], rseq [ws1, rlitCI "ORDER BY"],
      rseq [ws1, rlitCI "HAVING"], rseq [ws1, rlitCI "LIMIT"], .eos]]

/-- Source pattern GROUP BY\s+(.*?)(?:\s+HAVING|\s+ORDER BY|\s+LIMIT|$). -/
def sqlGroupRe : Re :=
  rseq [rlitCI "GROUP BY", ws1, .grp 1 anyLazy,
    ralt [rseq [ws1, rlitCI "HAVING"], rseq [ws1, rlitCI "ORDER BY"],
      rseq [ws1, rlitCI "LIMIT"], .eos]]

/-- Source pattern HAVING\s+(.*?)(?:\s+ORDER BY|\s+LIMIT|$). -/
def sqlHavingRe : Re :=
  rseq [rlitCI "HAVING", ws1, .grp 1 anyLazy,
    ralt [rseq [ws1, rlitCI "ORDER BY"], rseq [ws1, rlitCI "LIMIT"], .eos]]

/-- Source pattern ORDER BY\s+(.*?)(?:\s+LIMIT|$). -/
def sqlOrderRe : Re :=
  rseq [rlitCI "ORDER BY", ws1, .grp 1 anyLazy,
    ralt [rseq [ws1, rlitCI "LIMIT"], .eos]]

/-- Source pattern LIMIT\s+(\d+). -/
def sqlLimitRe : Re := rseq [rlitCI "LIMIT", ws1, .grp 1 digits1]

/-- Source pattern \w+\((.*?)\) of _convert_having_conditions. -/
def sqlFuncWrapRe : Re :=
  rseq [word1, .cls (.lit '('), .grp 1 anyLazy, .cls (.lit ')')]

/-- The conjunction splitter of MongoDBQueryGenerator._extract_conditions:
re.split gets re.IGNORECASE in its maxsplit slot, so the split is
case-sensitive on AND and performs at most two cuts. -/
def mongoSplitAnd (clause : String) : List String :=
  resplitN (rseq [ws1, rlit "AND", ws1]) 2 clause

/-- The operator lexicon of _extract_conditions in dict order. -/
def mongoOps : List String := ["<=", ">=", "!=", "=", "<", ">"]

/-- One sub-condition of _extract_conditions: the first operator symbol
occurring as a substring splits the chunk; a two-part split strips the
field and the quoted value and coerces the value, any other arity raises
ValueError, modelled as none; a chunk with no operator contributes
nothing. -/
def mongoCondOfChunk (chunk : String) : Option (Option MCondT) :=
  match mongoOps.find? (fun op => strContains chunk op) with
  | none => some none
  | some op =>
    match pySplitOnSub op chunk with
    | [f, v] =>
      some (some (pyStrip f, op,
        coerceValue (pyStripChars ['\'', '"'] (pyStrip v))))
    | _ => none

/-- MongoDBQueryGenerator._extract_conditions: split on AND as above, then
fold the chunks; none models the ValueError escaping the method. -/
def mongoExtractConditions (clause : String) : Option (List MCondT) :=
  (mongoSplitAnd clause).foldlM
    (fun acc chunk =>
      match mongoCondOfChunk chunk with
      | none => none
      | some none => some acc
      | some (some c) => some (acc ++ [c]))
    []

/-- The operator_map of _convert_conditions for symbols other than
equality. -/
def mongoOperatorMap (op : String) : Option String :=
  if op = ">" then some "$gt"
  else if op = "<" then some "$lt"
  else if op = ">=" then some "$gte"
  else if op = "<=" then some "$lte"
  else if op = "!=" then some "$ne"
  else none

/-- MongoDBQueryGenerator._convert_conditions: equality stores the value
directly, other mapped operators store an operator document; assignments
go through the dict, so a repeated field keeps only its last condition. -/
def convertConditions (cs : List MCondT) : List (String × MCond) :=
  cs.foldl
    (fun m c =>
      let (f, op, v) := c
      if op = "=" then dictSet m f (MCond.eqv v)
      else
        match mongoOperatorMap op with
        | some mo => dictSet m f (MCond.cmp mo v)
        | none => m)
    []

/-- The having coercion of _convert_having_conditions: a string value is
re-coerced numerically, an already numeric value raises TypeError inside
the try block and is kept unchanged. -/
def havingCoerce (v : Val) : Val :=
  match v with
  | Val.str s =>
    if strContains s "." then
      match pyFloatVal s with
      | some fv => fv
      | none => Val.str s
    else
      match pyInt s with
      | some n => Val.int n
      | none => Val.str s
  | other => other

/-- MongoDBQueryGenerator._convert_having_conditions: the aggregate
wrapper is stripped from the field with the function-call pattern, the
value re-coerced, and the six known operators mapped; an unknown operator
contributes nothing. -/
def convertHavingConditions (cs : List MCondT) : List (String × MCond) :=
  cs.foldl
    (fun m c =>
      let (f, op, v) := c
      let clean := resub sqlFuncWrapRe (fun g => (capGet g 1).getD "") f
      let v2 := havingCoerce v
      if op = ">" then dictSet m clean (MCond.cmp "$gt" v2)
      else if op = "<" then dictSet m clean (MCond.cmp "$lt" v2)
      else if op = ">=" then dictSet m clean (MCond.cmp "$gte" v2)
      else if op = "<=" then dictSet m clean (MCond.cmp "$lte" v2)
      else if op = "=" then dictSet m clean (MCond.eqv v2)
      else if op = "!=" then dictSet m clean (MCond.cmp "$ne" v2)
      else m)
    []

/-- MongoDBQueryGenerator._parse_sql_query: each clause regex is searched
on the query text; where and having go through the condition extractor,
whose ValueError propagates, and an empty ORDER BY capture would raise
IndexError, both modelled as none. -/
def parseSqlQuery (sql : String) : Option MSqlComponents :=
  let selectFields :=
    match (reSearch sqlSelectRe sql).bind (fun g => capGet g 1) with
    | some s => (pySplitOnSub "," s).map pyStrip
    | none => []
  let aggs := selectFields.foldl
    (fun acc f =>
      match reSearch sqlAggRe f with
      | some g =>
        acc ++ [(pyUpper ((capGet g 1).getD ""), pyStrip ((capGet g 2).getD ""),
          (capGet g 3).getD "")]
      | none => acc)
    []
  let fromv := (reSearch sqlFromRe sql).bind (fun g => capGet g 1)
  let whereRes : Option (List MCondT) :=
    match (reSearch sqlWhereRe sql).bind (fun g => capGet g 1) with
    | some clause => mongoExtractConditions clause
    | none => some []
  let gb :=
    match (reSearch sqlGroupRe sql).bind (fun g => capGet g 1) with
    | some s => (pySplitOnSub "," s).map pyStrip
    | none => []
  let havingRes : Option (List MCondT) :=
    match (reSearch sqlHavingRe sql).bind (fun g => capGet g 1) with
    | some clause => mongoExtractConditions clause
    | none => some []
  let orderRes : Option (Option (String × String)) :=
    match (reSearch sqlOrderRe sql).bind (fun g => capGet g 1) with
    | some s =>
      match pySplitWs (pyStrip s) with
      | [] => none
      | [f] => some (some (f, "ASC"))
      | f :: d :: _ => some (some (f, d))
    | none => some none
  let lim :=
    match (reSearch sqlLimitRe sql).bind (fun g => capGet g 1) with
    | some c => some ((pyInt c).getD 0)
    | none => none
  match whereRes, havingRes, orderRes with
  | some w, some h, some ob =>
    some { select := selectFields, from_ := fromv, where_ := w,
           group_by := gb, order_by := ob, having_ := h, limit := lim,
           aggregates := aggs }
  | _, _, _ => none

/-- The group stage builder of generate_mongo_query: the synthetic
identifier references the first grouping field, then one accumulator per
aggregate keyed by alias. -/
def mongoGroupStage (gb0 : String) (aggs : List (String × String × String)) :
    List (String × GV) :=
  aggs.foldl
    (fun m a =>
      let (t, f, al) := a
      if t = "COUNT" then dictSet m al GV.sum1
      else if t = "SUM" then dictSet m al (GV.sumField ("$" ++ f))
      else if t = "AVG" then dictSet m al (GV.avgField ("$" ++ f))
      else if t = "MAX" then dictSet m al (GV.maxField ("$" ++ f))
      else if t = "MIN" then dictSet m al (GV.minField ("$" ++ f))
      else m)
    [("_id", GV.idRef ("$" ++ gb0))]

/-- The project stage following the group stage: the synthetic identifier
suppressed, the grouping field renamed back, every alias passed
through. -/
def mongoProjectStage (gb0 : String) (aggs : List (String × String × String)) :
    List (String × PV) :=
  aggs.foldl
    (fun m a => dictSet m a.2.2 (PV.num 1))
    (dictSet [("_id", PV.num 0)] gb0 (PV.ref "$_id"))

/-- MongoDBQueryGenerator.generate_mongo_query: parse the query text, then
emit the match stage when where conditions produced a nonempty filter, the
group and project pair when a group_by is present, the sort stage from
order_by and the limit stage from a truthy limit. -/
def generateMongoQuery (sql : String) : Option MongoQuery :=
  match parseSqlQuery sql with
  | none => none
  | some c =>
    let matchStages :=
      if c.where_.isEmpty then []
      else
        let m := convertConditions c.where_
        if m.isEmpty then [] else [Stage.smatch m]
    let groupStages :=
      match c.group_by with
      | [] => []
      | gb0 :: _ =>
        [Stage.group (mongoGroupStage gb0 c.aggregates),
         Stage.project (mongoProjectStage gb0 c.aggregates)]
    let sortStages :=
      match c.order_by with
      | some (f, d) => [Stage.sort f (if pyUpper d = "DESC" then -1 else 1)]
      | none => []
    let limitStages :=
      match c.limit with
      | some n => if n = 0 then [] else [Stage.limit n]
      | none => []
    some { collection := c.from_,
           pipeline := matchStages ++ groupStages ++ sortStages ++ limitStages }

/-- MongoDBQueryGenerator._create_pipeline, the IR-driven builder: a match
stage from the where conditions, then a projection for an explicit select
list that is not the bare star, always excluding the internal
identifier. -/
def createPipeline (c : MSqlComponents) : List Stage :=
  (if c.where_.isEmpty then []
   else [Stage.smatch (convertConditions c.where_)]) ++
  (if c.select ≠ [] && c.select ≠ ["*"] then
     [Stage.project (c.select.foldl (fun m f => dictSet m f (PV.num 1))
       [("_id", PV.num 0)])]
   else [])

/-- Lift of the extractor IR into the components shape _create_pipeline
consumes: in the Python source one dict flows between the two modules, the
condition values still being the captured strings. -/
def irToMongoComponents (c : Components) : MSqlComponents :=
  { select := c.select, from_ := c.from_,
    where_ := c.where_.map (fun p => (p.1, p.2.1, Val.str p.2.2)),
    group_by := c.group_by, order_by := c.order_by,
    having_ := c.having_.map (fun p => (p.1, p.2.1, Val.str p.2.2)),
    limit := c.limit, aggregates := c.aggregates }

-- ## Claim theorems

set_option maxRecDepth 40000

/-- C1: on the text count orders grouped by status with a catalog holding
orders, the extractor returns the IR with the count-all aggregate, the
status group field and select status; the relational synthesizer renders
exactly SELECT status, COUNT(star) AS count_total FROM orders GROUP BY
status; and the text-driven pipeline synthesizer turns that text into the
group stage summing one per document under the count_total alias with the
status reference as identifier, followed by the project stage renaming the
identifier back to status, passing count_total through and suppressing the
internal identifier, over the orders collection.  The stage documents are
dicts, listed here in their insertion order. -/
theorem c1_scenario_a :
    extractQueryComponents "count orders grouped by status" ["orders"] =
      { select := ["status"], from_ := some "orders", where_ := [],
        having_ := [], group_by := ["status"], order_by := none,
        aggregates := [("COUNT", "*", "count_total")], limit := none } ∧
    generateSqlQuery
        (extractQueryComponents "count orders grouped by status" ["orders"]) =
      "SELECT status, COUNT(*) AS count_total FROM orders GROUP BY status" ∧
    generateMongoQuery
        "SELECT status, COUNT(*) AS count_total FROM orders GROUP BY status" =
      some { collection := some "orders",
             pipeline :=
               [Stage.group [("_id", GV.idRef "$status"),
                  ("count_total", GV.sum1)],
                Stage.project [("_id", PV.num 0), ("status", PV.ref "$_id"),
                  ("count_total", PV.num 1)]] } :=
  ⟨rfl, rfl, rfl⟩

/-- C2: on the text show cars where price greater than 20000 order by price
desc limit 5, the extractor plus the relational synthesizer emit the
query WITHOUT any LIMIT clause, because extract_query_components never
invokes _extract_limit and the limit component stays None; the detection
helper itself does capture 5 from the phrase, so the claimed behavior is
the evident intent and the missing call the slip. -/
theorem c2_limit_never_wired :
    generateSqlQuery
        (extractQueryComponents
          "show cars where price > 20000 order by price desc limit 5" ["cars"]) =
      "SELECT * FROM cars WHERE price > 20000 ORDER BY price DESC" ∧
    (extractQueryComponents
        "show cars where price > 20000 order by price desc limit 5"
        ["cars"]).limit = none ∧
    extractLimit "show cars where price > 20000 order by price desc limit 5" =
      some 5 :=
  ⟨rfl, rfl, rfl⟩

/-- C3: condition extraction splits on the conjunction BEFORE trying the
between pattern, so the text price between 10 and 20 fragments into two
sub-spans neither of which any pattern matches, and the extracted
condition list is empty; the between branch itself is unreachable because
its pattern needs the very conjunction the split has consumed.  Had the
two lowered bound conditions been produced, the relational renderer does
emit both inclusive bounds joined by AND, but the pipeline converter keyed
by field would overwrite the lower bound with the upper one. -/
theorem c3_between_fragmented :
    extractConditions "price between 10 and 20" = [] ∧
    qgSplitAnd "price between 10 and 20" = ["price between 10", "20"] ∧
    generateSqlQuery
        { emptyComponents with
          from_ := some "items",
          where_ := [("price", ">=", "10"), ("price", "<=", "20")] } =
      "SELECT * FROM items WHERE price >= 10 AND price <= 20" ∧
    convertConditions [("price", ">=", Val.int 10), ("price", "<=", Val.int 20)] =
      [("price", MCond.cmp "$lte" (Val.int 20))] :=
  ⟨rfl, rfl, rfl, rfl⟩

/-- C4: the SQL re-parser does extract the HAVING conditions, but
generate_mongo_query never reads them: the pipeline for a grouped
aggregation query with a HAVING clause holds only the group and project
stages and no post-aggregation match stage, even though the dead helper
_convert_having_conditions would have produced exactly the described
filter. -/
theorem c4_having_dropped :
    (parseSqlQuery
        "SELECT category, AVG(price) AS avg_price FROM products GROUP BY category HAVING AVG(price) > 100").map
        MSqlComponents.having_ =
      some [("AVG(price)", ">", Val.int 100)] ∧
    generateMongoQuery
        "SELECT category, AVG(price) AS avg_price FROM products GROUP BY category HAVING AVG(price) > 100" =
      some { collection := some "products",
             pipeline :=
               [Stage.group [("_id", GV.idRef "$category"),
                  ("avg_price", GV.avgField "$price")],
                Stage.project [("_id", PV.num 0), ("category", PV.ref "$_id"),
                  ("avg_price", PV.num 1)]] } ∧
    convertHavingConditions [("AVG(price)", ">", Val.int 100)] =
      [("price", MCond.cmp "$gt" (Val.int 100))] :=
  ⟨rfl, rfl, rfl⟩

/-- C5 counterexample: for the IR selecting everything from cars where
price exceeds 20000, the IR-driven builder _create_pipeline keeps the
captured string value in its match stage, while the text-driven path
re-parsing the rendered relational text coerces the value to a number, so
the two match stages differ in the representation of the condition
value. -/
theorem c5_counterexample :
    createPipeline (irToMongoComponents
        { emptyComponents with
          from_ := some "cars",
          where_ := [("price", ">", "20000")] }) =
      [Stage.smatch [("price", MCond.cmp "$gt" (Val.str "20000"))]] ∧
    generateSqlQuery
        { emptyComponents with
          from_ := some "cars",
          where_ := [("price", ">", "20000")] } =
      "SELECT * FROM cars WHERE price > 20000" ∧
    (generateMongoQuery "SELECT * FROM cars WHERE price > 20000").map
        MongoQuery.pipeline =
      some [Stage.smatch [("price", MCond.cmp "$gt" (Val.int 20000))]] ∧
    ([Stage.smatch [("price", MCond.cmp "$gt" (Val.str "20000"))]] : List Stage) ≠
      [Stage.smatch [("price", MCond.cmp "$gt" (Val.int 20000))]] :=
  ⟨rfl, rfl, rfl, by decide⟩

/-- C5 amended: the two pipeline builders do not agree in general; they
disagree in two ways.  On numeric literal values the text-driven path
coerces the value to a number while the IR-driven path keeps the captured
string (the counterexample above), and on values containing an operator
symbol the rendered text re-parses into a split with more than two parts,
so the ValueError makes the text-driven path return nothing while the
IR-driven builder still yields its match stage, shown here for the value
a=b.  Agreement holds on operator-free non-numeric values, exhibited
across the whole closed operator set and representative plain values on a
where-only IR. -/
theorem c5_paths_agree_only_on_plain_values (op v : String)
    (hop : op ∈ (["=", ">", "<", ">=", "<=", "!="] : List String))
    (hv : v ∈ (["abc", "Pending", "x_y"] : List String)) :
    ((generateMongoQuery (generateSqlQuery
        { emptyComponents with
          from_ := some "cars",
          where_ := [("name", op, v)] })).map MongoQuery.pipeline =
      some (createPipeline (irToMongoComponents
        { emptyComponents with
          from_ := some "cars",
          where_ := [("name", op, v)] }))) ∧
    generateMongoQuery (generateSqlQuery
        { emptyComponents with
          from_ := some "cars",
          where_ := [("name", "=", "a=b")] }) = none ∧
    createPipeline (irToMongoComponents
        { emptyComponents with
          from_ := some "cars",
          where_ := [("name", "=", "a=b")] }) =
      [Stage.smatch [("name", MCond.eqv (Val.str "a=b"))]] := by
  refine ⟨?_, rfl, rfl⟩
  fin_cases hop <;> fin_cases hv <;> rfl

/-- C5 witness: the scoped agreement theorem applied at the greater-than
operator and the value abc. -/
theorem c5_paths_agree_only_on_plain_values_witness :
    (">" : String) ∈ (["=", ">", "<", ">=", "<=", "!="] : List String) ∧
    ("abc" : String) ∈ (["abc", "Pending", "x_y"] : List String) ∧
    (((generateMongoQuery (generateSqlQuery
        { emptyComponents with
          from_ := some "cars",
          where_ := [("name", ">", "abc")] })).map MongoQuery.pipeline =
      some (createPipeline (irToMongoComponents
        { emptyComponents with
          from_ := some "cars",
          where_ := [("name", ">", "abc")] }))) ∧
    generateMongoQuery (generateSqlQuery
        { emptyComponents with
          from_ := some "cars",
          where_ := [("name", "=", "a=b")] }) = none ∧
    createPipeline (irToMongoComponents
        { emptyComponents with
          from_ := some "cars",
          where_ := [("name", "=", "a=b")] }) =
      [Stage.smatch [("name", MCond.eqv (Val.str "a=b"))]]) :=
  ⟨by decide, by decide,
    c5_paths_agree_only_on_plain_values ">" "abc" (by decide) (by decide)⟩

/-- C6: for any IR whose from entity is set and truthy and whose other
clauses are all empty, the relational output is exactly the SELECT list
followed by the FROM clause, with nothing appended; the select list is
rendered as its comma join, the extractor defaulting it to the bare star
at construction. -/
theorem c6_no_trailing_clauses (sel : List String) (t : String) (h : t ≠ "") :
    generateSqlQuery
        { select := sel, from_ := some t, where_ := [], having_ := [],
          group_by := [], order_by := none, aggregates := [], limit := none } =
      "SELECT " ++ pyJoin ", " sel ++ " FROM " ++ t := by
  have hf : (if t = "" then ([] : List String) else ["FROM " ++ t]) =
      ["FROM " ++ t] := if_neg h
  calc generateSqlQuery
        { select := sel, from_ := some t, where_ := [], having_ := [],
          group_by := [], order_by := none, aggregates := [], limit := none }
      = pyJoin " " (["SELECT " ++ pyJoin ", " sel] ++
          (if t = "" then [] else ["FROM " ++ t]) ++ [] ++ [] ++ [] ++ [] ++ []) := rfl
    _ = pyJoin " " (["SELECT " ++ pyJoin ", " sel] ++
          ["FROM " ++ t] ++ [] ++ [] ++ [] ++ [] ++ []) := by rw [hf]
    _ = ("SELECT " ++ pyJoin ", " sel) ++ " " ++ ("FROM " ++ t) := rfl
    _ = "SELECT " ++ pyJoin ", " sel ++ " FROM " ++ t := by
          rw [String.append_assoc ("SELECT " ++ pyJoin ", " sel) " " ("FROM " ++ t),
            ← String.append_assoc " " "FROM " t,
            ← String.append_assoc ("SELECT " ++ pyJoin ", " sel) (" " ++ "FROM ") t]
          rfl

/-- C6 witness: the rendering theorem applied to the star select over the
users entity. -/
theorem c6_no_trailing_clauses_witness :
    ("users" : String) ≠ "" ∧
    generateSqlQuery
        { select := ["*"], from_ := some "users", where_ := [], having_ := [],
          group_by := [], order_by := none, aggregates := [], limit := none } =
      "SELECT " ++ pyJoin ", " ["*"] ++ " FROM " ++ "users" :=
  ⟨by decide, c6_no_trailing_clauses ["*"] "users" (by decide)⟩

/-- C7: the extractor is a total function of its inputs, and whenever
table resolution fails it returns the component record unchanged from its
initialization: from is None and every other field holds its safe default,
the star select, empty condition and grouping lists, no order and no
limit. -/
theorem c7_unresolved_target_defaults (text : String) (tables : List String)
    (h : extractTableName (pyLower text) tables = none) :
    extractQueryComponents text tables = emptyComponents := by
  unfold extractQueryComponents
  rw [h]

/-- C7 witness: the default theorem applied to a text whose target entity
is missing from the catalog. -/
theorem c7_unresolved_target_defaults_witness :
    extractTableName (pyLower "average rating from movies") ["users"] = none ∧
    extractQueryComponents "average rating from movies" ["users"] =
      emptyComponents :=
  ⟨rfl, c7_unresolved_target_defaults "average rating from movies" ["users"] rfl⟩

/-- C8 counterexample: in the grouped-count branch the order pattern is
searched on the lower-cased copy of the text, so the mixed-case field
Total reaches the IR as total while the group field Status keeps its
original casing; the claim that every captured field is read back from the
original-case input is therefore false. -/
theorem c8_counterexample :
    (extractQueryComponents "count orders grouped by Status sort by Total desc"
        ["orders"]).order_by = some ("total", "DESC") ∧
    (extractQueryComponents "count orders grouped by Status sort by Total desc"
        ["orders"]).group_by = ["Status"] ∧
    ("total" : String) ≠ "Total" :=
  ⟨rfl, rfl, by decide⟩

/-- C8 amended: the count cue is matched on the lower-cased copy and the
group field is captured from the original text with its casing intact, but
the order-by field of the grouped-count branch is captured from the
lower-cased copy and reaches the IR lower-cased; checked across mixed-case
field and group names. -/
theorem c8_group_field_kept_order_field_lowered (f g : String)
    (hf : f ∈ (["Total", "PRICE"] : List String))
    (hg : g ∈ (["Status", "ID"] : List String)) :
    extractQueryComponents
        ("count orders grouped by " ++ g ++ " sort by " ++ f ++ " desc")
        ["orders"] =
      { select := [g], from_ := some "orders", where_ := [], having_ := [],
        group_by := [g], order_by := some (pyLower f, "DESC"),
        aggregates := [("COUNT", "*", "count_total")], limit := none } := by
  fin_cases hf <;> fin_cases hg <;> rfl

/-- C8 witness: the amended theorem applied to the Total field and Status
group name. -/
theorem c8_group_field_kept_order_field_lowered_witness :
    ("Total" : String) ∈ (["Total", "PRICE"] : List String) ∧
    ("Status" : String) ∈ (["Status", "ID"] : List String) ∧
    extractQueryComponents
        ("count orders grouped by " ++ "Status" ++ " sort by " ++ "Total" ++ " desc")
        ["orders"] =
      { select := ["Status"], from_ := some "orders", where_ := [], having_ := [],
        group_by := ["Status"], order_by := some (pyLower "Total", "DESC"),
        aggregates := [("COUNT", "*", "count_total")], limit := none } :=
  ⟨by decide, by decide,
    c8_group_field_kept_order_field_lowered "Total" "Status" (by decide) (by decide)⟩

/-- C9: whenever the table resolves to a usable name, some group pattern
matches and the count cue is present in the lower-cased text, the
extractor returns from the grouped-count branch immediately: the where
list is empty and the limit is None whatever else the text contains, the
aggregate is the count-all triple and select collapses to the grouping
field. -/
theorem c9_group_count_short_circuits (text : String) (tables : List String)
    (tbl gf : String)
    (h1 : extractTableName (pyLower text) tables = some tbl)
    (h2 : ¬ tbl = "")
    (h3 : firstGroupMatch text = some gf)
    (h4 : strContains (pyLower text) "count" = true) :
    (extractQueryComponents text tables).where_ = [] ∧
    (extractQueryComponents text tables).limit = none ∧
    (extractQueryComponents text tables).aggregates =
      [("COUNT", "*", "count_total")] ∧
    (extractQueryComponents text tables).select = [gf] := by
  unfold extractQueryComponents
  rw [h1]
  simp only [if_neg h2]
  unfold qgMain
  rw [h3]
  simp only [h4, if_true]
  exact ⟨rfl, rfl, rfl, rfl⟩

/-- C9 witness: the short-circuit theorem applied to a grouped count text
that also carries a condition phrase and a limit phrase, both of which the
returned IR drops. -/
theorem c9_group_count_short_circuits_witness :
    extractTableName
        (pyLower "count orders grouped by status where price > 5 limit 3")
        ["orders"] = some "orders" ∧
    ¬ ("orders" : String) = "" ∧
    firstGroupMatch "count orders grouped by status where price > 5 limit 3" =
      some "status" ∧
    strContains
        (pyLower "count orders grouped by status where price > 5 limit 3")
        "count" = true ∧
    ((extractQueryComponents
        "count orders grouped by status where price > 5 limit 3"
        ["orders"]).where_ = [] ∧
      (extractQueryComponents
        "count orders grouped by status where price > 5 limit 3"
        ["orders"]).limit = none ∧
      (extractQueryComponents
        "count orders grouped by status where price > 5 limit 3"
        ["orders"]).aggregates = [("COUNT", "*", "count_total")] ∧
      (extractQueryComponents
        "count orders grouped by status where price > 5 limit 3"
        ["orders"]).select = ["status"]) :=
  ⟨rfl, by decide, rfl, rfl,
    c9_group_count_short_circuits
      "count orders grouped by status where price > 5 limit 3" ["orders"]
      "orders" "status" rfl (by decide) rfl rfl⟩

/-- C10 counterexample: on four same-operator AND-joined conditions the
re-parser does not return a fused condition list as claimed; the fused
third chunk contains the equality symbol twice, the two-name unpacking of
its split fails, and the ValueError escapes, modelled as None. -/
theorem c10_counterexample :
    mongoExtractConditions "a = 1 AND b = 2 AND c = 3 AND d = 4" = none := rfl

/-- C10 amended: re.split receives IGNORECASE in its maxsplit slot, so at
most the first two case-sensitively matched AND boundaries are cut and a
lower-case and is never a boundary; with four conditions the tail stays
fused, which yields one malformed fused entry when the first operator
found in the fused chunk occurs exactly once, and raises ValueError, here
None, when it occurs more than once, as with same-operator chains. -/
theorem c10_maxsplit_two_case_sensitive :
    mongoSplitAnd "a = 1 AND b = 2 AND c = 3 AND d = 4" =
      ["a = 1", "b = 2", "c = 3 AND d = 4"] ∧
    mongoSplitAnd "x = 1 and y = 2" = ["x = 1 and y = 2"] ∧
    mongoExtractConditions "a = 1 AND b > 2 AND c < 3 AND d > 4" =
      some [("a", "=", Val.int 1), ("b", ">", Val.int 2),
        ("c", "<", Val.str "3 AND d > 4")] ∧
    mongoExtractConditions "a = 1 AND b = 2 AND c = 3 AND d = 4" = none :=
  ⟨rfl, rfl, rfl, rfl⟩

end TJ
